import Mathlib

/-!
Verification development for the `PostgresToolset` component
(`src/postgres-toolset/src/toolset.py` and `config.py`).

The toolset is embedded shallowly: the database driver and the
text-completion capability are oracles (functions supplied as arguments),
and the dict-shaped results of each tool are mirrored by structures whose
fields are `Option`s (`none` = key absent from the returned dict).
-/

namespace PostgresToolset

/-! ### Python string semantics

Small, transparent helpers mirroring the Python string operations the
source uses.  Strings in this Lean version are lists of characters, so
each helper is phrased on `String.data`.
-/

/-- The whitespace characters removed by Python's `str.strip()`. -/
def pyWS (c : Char) : Bool :=
  c = ' ' || c = '\t' || c = '\n' || c = '\r' || c = '\x0b' || c = '\x0c'

/-- Python `s.strip()`: remove leading and trailing whitespace. -/
def pyStrip (s : String) : String :=
  ⟨((s.data.dropWhile pyWS).reverse.dropWhile pyWS).reverse⟩

/-- Python `s.upper()` (ASCII letters; the SQL keywords compared against are ASCII). -/
def pyUpper (s : String) : String :=
  ⟨s.data.map Char.toUpper⟩

/-- Python `s.startswith(p)`. -/
def pyStartsWith (s p : String) : Bool :=
  p.data.isPrefixOf s.data

/-- Python `s.endswith(p)`. -/
def pyEndsWith (s p : String) : Bool :=
  p.data.isSuffixOf s.data

/-- Python `s.split("\n", 1)[1]`: the text after the first newline.
`none` models the `IndexError` raised when `s` contains no newline
(then `split` returns a one-element list and index 1 is out of range). -/
def afterFirstNewline (s : String) : Option String :=
  if s.data.contains '\n' then
    some ⟨(s.data.dropWhile (fun c => c != '\n')).tail⟩
  else
    none

/-- Python `s.rsplit("```", 1)[0]` for `s` that ends with `"```"`:
the last occurrence of the separator is then the final three characters,
so exactly they are removed. -/
def dropLast3 (s : String) : String :=
  ⟨s.data.take (s.data.length - 3)⟩

/-! ### Data model (`config.py` and the dict shapes of `toolset.py`) -/

/-- `WriteMode` from `config.py`. -/
inductive WriteMode where
  | BLOCKED
  | ALLOWED
deriving DecidableEq, Repr

/-- `PostgresConfig` from `config.py`.  `max_rows` is a natural number
(the claims under verification quantify over `max_rows ≥ 0`). -/
structure PostgresConfig where
  connection_string : String
  write_mode : WriteMode := WriteMode.BLOCKED
  default_schema : String := "public"
  max_rows : Nat := 100
  timeout_seconds : Nat := 30
deriving DecidableEq, Repr

/-- The `status` field of every tool result. -/
inductive Status where
  | success
  | error
deriving DecidableEq, Repr

/-- A scalar cell value of a result row (psycopg hands back heterogeneous
Python scalars; the claims treat them opaquely). -/
inductive Value where
  | null
  | int (i : Int)
  | str (s : String)
  | bool (b : Bool)
deriving DecidableEq, Repr

/-! ### Tool 4: `execute_sql` -/

/-- The driver's possible responses to `cur.execute(sql)`:
a result set (`cur.description` non-null), a command completion
(`cur.description` null, with `cur.rowcount`), or a raised exception.
Connection failures are folded into `failure` (they surface identically). -/
inductive QueryOutcome where
  | resultSet (columns : List String) (rows : List (List Value))
  | command (rowcount : Int)
  | failure (msg : String)
deriving DecidableEq, Repr

/-- The dict returned by `_execute_sql`; `none` = key absent. -/
structure ExecResult where
  status : Status
  query : Option String := none
  columns : Option (List String) := none
  rows : Option (List (List Value)) := none
  row_count : Option Nat := none
  message : Option String := none
  error_message : Option String := none
deriving DecidableEq, Repr

/-- The write-block rejection message of `_execute_sql`. -/
def blockedMsg : String :=
  "Write operations are blocked. Only SELECT queries allowed."

/-- The keyword list of `_execute_sql`'s write check. -/
def writeKeywords : List String :=
  ["INSERT", "UPDATE", "DELETE", "DROP", "CREATE", "ALTER", "TRUNCATE"]

/-- `_execute_sql`'s classification:
`query_upper = sql_query.strip().upper()` followed by
`any(query_upper.startswith(kw) for kw in [...])`. -/
def isWriteQuery (sql_query : String) : Bool :=
  let query_upper := pyUpper (pyStrip sql_query)
  writeKeywords.any (fun kw => pyStartsWith query_upper kw)

/-- psycopg 3's `Cursor.fetchmany(size)`: a `size` of 0 counts as
"unspecified" and `arraysize` is substituted; the toolset never sets
`arraysize`, so its default of 1 applies.  Hence `fetchmany(0)` returns up
to one row, not zero. -/
def fetchmany (size : Nat) (rws : List (List Value)) : List (List Value) :=
  rws.take (if size = 0 then 1 else size)

/-- `_execute_sql` from `toolset.py`.  `db` is the driver oracle.  The second
component of the result records whether the driver's execute path was
reached (`false` exactly when the function returned before touching the
connection). -/
def execute_sql (cfg : PostgresConfig) (db : String → QueryOutcome)
    (sql_query : String) : ExecResult × Bool :=
  if isWriteQuery sql_query = true ∧ cfg.write_mode = WriteMode.BLOCKED then
    ({ status := .error, error_message := some blockedMsg }, false)
  else
    match db sql_query with
    | .resultSet cols rws =>
        let rws' := fetchmany cfg.max_rows rws
        ({ status := .success, query := some sql_query, columns := some cols,
           rows := some rws', row_count := some rws'.length }, true)
    | .command rc =>
        ({ status := .success, query := some sql_query,
           message := some ("Query executed successfully. Rows affected: " ++ toString rc) },
         true)
    | .failure e =>
        ({ status := .error, query := some sql_query, error_message := some e }, true)

/-! ### Tools 1-3: schema inspector (`_list_schemas`, `_list_tables`, `_get_table_info`)

Each catalog query is an oracle of type `Except String rows`: `.ok` carries
the rows `cur.fetchall()` returns, `.error` the text of a raised driver
exception (connection failures included).
-/

/-- One row of `_list_schemas`'s catalog query: `(nspname, table_count)`. -/
structure SchemaRow where
  name : String
  table_count : Int
deriving DecidableEq, Repr

/-- The dict returned by `_list_schemas`. -/
structure ListSchemasResult where
  status : Status
  schemas : Option (List SchemaRow) := none
  error_message : Option String := none
deriving DecidableEq, Repr

/-- `_list_schemas` from `toolset.py`. -/
def list_schemas (q : Except String (List SchemaRow)) : ListSchemasResult :=
  match q with
  | .ok rws => { status := .success, schemas := some rws }
  | .error e => { status := .error, error_message := some e }

/-- One row of `_list_tables`'s catalog query:
`(tablename, row_count, description)`. -/
structure TableRow where
  name : String
  row_count : Int
  description : String
deriving DecidableEq, Repr

/-- The dict returned by `_list_tables`. -/
structure ListTablesResult where
  status : Status
  schema : Option String := none
  tables : Option (List TableRow) := none
  error_message : Option String := none
deriving DecidableEq, Repr

/-- `_list_tables` from `toolset.py`. -/
def list_tables (q : Except String (List TableRow)) (schema_name : String) :
    ListTablesResult :=
  match q with
  | .ok rws => { status := .success, schema := some schema_name, tables := some rws }
  | .error e => { status := .error, error_message := some e }

/-- One row of `_get_table_info`'s columns query:
`(column_name, data_type, is_nullable = 'YES', column_default)`;
`column_default` is nullable in the catalog, hence an `Option`. -/
structure ColumnRow where
  name : String
  type : String
  nullable : Bool
  col_default : Option String
deriving DecidableEq, Repr

/-- Entry of the `columns` list in `_get_table_info`'s result.
`dflt` is the dict key `"default"` (`col[3] or ""`). -/
structure ColumnInfo where
  name : String
  type : String
  nullable : Bool
  dflt : String
deriving DecidableEq, Repr

/-- Entry of the `foreign_keys` list: `(column, referenced schema.table.column)`. -/
structure ForeignKeyInfo where
  column : String
  references : String
deriving DecidableEq, Repr

/-- The four catalog-query oracles `_get_table_info` issues, in program
order: columns, primary key, foreign keys, sample rows. -/
structure TableInfoQueries where
  colsQ : Except String (List ColumnRow)
  pkQ : Except String (List String)
  fkQ : Except String (List (String × String))
  sampleQ : Except String (List (List Value))

/-- The dict returned by `_get_table_info`. -/
structure TableInfoResult where
  status : Status
  table : Option String := none
  schema : Option String := none
  columns : Option (List ColumnInfo) := none
  primary_key : Option (List String) := none
  foreign_keys : Option (List ForeignKeyInfo) := none
  sample_rows : Option (List (List Value)) := none
  error_message : Option String := none
deriving DecidableEq, Repr

/-- `_get_table_info` from `toolset.py`: four catalog queries in sequence;
the first raised exception aborts the whole operation and the handler
returns a fresh two-key error dict (the partially built `result` dict is
discarded). -/
def get_table_info (q : TableInfoQueries) (table_name : String)
    (schema_name : String := "public") : TableInfoResult :=
  match q.colsQ with
  | .error e => { status := .error, error_message := some e }
  | .ok cols =>
    match q.pkQ with
    | .error e => { status := .error, error_message := some e }
    | .ok pk =>
      match q.fkQ with
      | .error e => { status := .error, error_message := some e }
      | .ok fk =>
        match q.sampleQ with
        | .error e => { status := .error, error_message := some e }
        | .ok samp =>
          { status := .success, table := some table_name, schema := some schema_name,
            columns := some (cols.map fun c =>
              { name := c.name, type := c.type, nullable := c.nullable,
                dflt := c.col_default.getD "" }),
            primary_key := some pk,
            foreign_keys := some (fk.map fun p =>
              { column := p.1, references := p.2 }),
            sample_rows := some samp }

/-! ### Tool 5: `ask_data_insights` -/

/-- The markdown-fence clean-up `_ask_data_insights` applies to the
completion text before executing it:
`strip()`, then `split("\n", 1)[1]` when the text starts with three
backticks (`none` models the `IndexError` when it has no newline), then
`rsplit("```", 1)[0]` when the text ends with three backticks, then a
final `strip()`. -/
def extract_sql (text : String) : Option String :=
  let s0 := pyStrip text
  let s1? := if pyStartsWith s0 "```" = true then afterFirstNewline s0 else some s0
  s1?.map fun s1 =>
    let s2 := if pyEndsWith s1 "```" = true then dropLast3 s1 else s1
    pyStrip s2

/-- The SQL-synthesis prompt of `_ask_data_insights` (the f-string with
schema block, question and the four rules). -/
def sql_synthesis_prompt (schema_name schema_str question : String)
    (max_rows : Nat) : String :=
  "You are a SQL expert. Given the following PostgreSQL schema and a question, generate a SQL query.\n\nSchema (" ++
  schema_name ++ "):\n" ++ schema_str ++ "\n\nQuestion: " ++ question ++
  "\n\nRules:\n1. Return ONLY the SQL query, no explanations\n2. Use only SELECT statements\n3. Limit results to " ++
  toString max_rows ++
  " rows\n4. Use proper table qualification with schema name when needed\n\nSQL:"

/-- Stands in for Python's `str(...)` rendering of a scalar in the data
preview; no claim depends on the exact text. -/
def renderValue : Value → String
  | .null => "None"
  | .int i => toString i
  | .str s => "'" ++ s ++ "'"
  | .bool b => if b then "True" else "False"

/-- Stands in for Python's `str(...)` of one row. -/
def renderRow (r : List Value) : String :=
  "[" ++ String.intercalate ", " (r.map renderValue) ++ "]"

/-- Stands in for Python's `str(...)` of the row-list preview. -/
def renderRows (rs : List (List Value)) : String :=
  "[" ++ String.intercalate ", " (rs.map renderRow) ++ "]"

/-- The answer-synthesis prompt of `_ask_data_insights`. -/
def answer_synthesis_prompt (question sql_q data_preview : String)
    (row_count : Nat) : String :=
  "Based on this SQL query result, provide a concise answer.\n\nQuestion: " ++
  question ++ "\nSQL: " ++ sql_q ++ "\nData (preview): " ++ data_preview ++
  "\nRow count: " ++ toString row_count ++ "\n\nAnswer (1-2 sentences):"

/-- One line of the schema context:
`f"- {table['name']}: {cols}"` with `cols` the comma-joined
`f"{c['name']} ({c['type']})"` entries. -/
def table_line (t : TableRow) (info : TableInfoResult) : String :=
  "- " ++ t.name ++ ": " ++
  String.intercalate ", "
    ((info.columns.getD []).map fun c => c.name ++ " (" ++ c.type ++ ")")

/-- The schema-context loop of `_ask_data_insights`:
`for table in tables_result["tables"][:10]` fetch the table info and, when
it succeeded, append the table's line. -/
def schema_context (infoQ : String → TableInfoQueries) (schema_name : String)
    (tables : List TableRow) : List String :=
  (tables.take 10).filterMap fun t =>
    let info := get_table_info (infoQ t.name) t.name schema_name
    if info.status = Status.success then some (table_line t info) else none

/-- The oracles `_ask_data_insights` interacts with: the `list_tables`
catalog query, the per-table `get_table_info` queries, the driver execute
path, and the completion capability (`prompt ↦` generated text, or the
text of a raised exception). -/
structure AskEnv where
  tablesQ : Except String (List TableRow)
  infoQ : String → TableInfoQueries
  db : String → QueryOutcome
  llm : String → Except String String

/-- The dict returned by `_ask_data_insights`; `none` = key absent. -/
structure InsightResult where
  status : Status
  question : Option String := none
  sql_query : Option String := none
  answer : Option String := none
  columns : Option (List String) := none
  data : Option (List (List Value)) := none
  row_count : Option Nat := none
  error_message : Option String := none
deriving DecidableEq, Repr

/-- `_ask_data_insights`'s result together with its observable interaction
trace: the SQL strings that reached the driver's execute path and the
prompts sent to the completion capability, in order. -/
structure AskOutcome where
  result : InsightResult
  executed : List String
  prompts : List String
deriving DecidableEq, Repr

/-- The message of the `IndexError` raised by `split("\n", 1)[1]`. -/
def indexErrorMsg : String := "list index out of range"

/-- `_ask_data_insights` from `toolset.py`.  Stage order: `_list_tables`
(its error dict is returned unchanged), schema context over the first 10
tables, SQL-synthesis completion, fence clean-up, `_execute_sql`,
answer-synthesis completion.  Oracle failures (`Except.error`) and the
fence `IndexError` land in the outer `except`, which returns a dict with
`status`, `question` and `error_message` only. -/
def ask_data_insights (cfg : PostgresConfig) (env : AskEnv) (question : String)
    (schema_name : String := "public") : AskOutcome :=
  let tables_result := list_tables env.tablesQ schema_name
  if tables_result.status = Status.error then
    { result := { status := .error, error_message := tables_result.error_message },
      executed := [], prompts := [] }
  else
    let tables := tables_result.tables.getD []
    let schema_str := String.intercalate "\n" (schema_context env.infoQ schema_name tables)
    let prompt := sql_synthesis_prompt schema_name schema_str question cfg.max_rows
    match env.llm prompt with
    | .error e =>
        { result := { status := .error, question := some question,
                      error_message := some e },
          executed := [], prompts := [prompt] }
    | .ok text =>
        match extract_sql text with
        | none =>
            { result := { status := .error, question := some question,
                          error_message := some indexErrorMsg },
              executed := [], prompts := [prompt] }
        | some sql_q =>
            let er := execute_sql cfg env.db sql_q
            let exec_result := er.1
            let executed := if er.2 then [sql_q] else []
            if exec_result.status = Status.error then
              { result := { status := .error, question := some question,
                            sql_query := some sql_q,
                            error_message := exec_result.error_message },
                executed := executed, prompts := [prompt] }
            else
              let data_preview := renderRows ((exec_result.rows.getD []).take 5)
              let aprompt := answer_synthesis_prompt question sql_q data_preview
                (exec_result.row_count.getD 0)
              match env.llm aprompt with
              | .error e =>
                  { result := { status := .error, question := some question,
                                error_message := some e },
                    executed := executed, prompts := [prompt, aprompt] }
              | .ok ans =>
                  { result := { status := .success, question := some question,
                                sql_query := some sql_q,
                                answer := some (pyStrip ans),
                                columns := some (exec_result.columns.getD []),
                                data := some (exec_result.rows.getD []),
                                row_count := some (exec_result.row_count.getD 0) },
                    executed := executed, prompts := [prompt, aprompt] }

/-! ### Sample data used by witness theorems -/

/-- Sample configuration with writes blocked (the `config.py` defaults). -/
def cfgB : PostgresConfig :=
  { connection_string := "postgresql://u:p@localhost:5432/db" }

/-- Sample configuration with writes allowed and a small row cap. -/
def cfgA : PostgresConfig :=
  { connection_string := "postgresql://u:p@localhost:5432/db",
    write_mode := WriteMode.ALLOWED, max_rows := 2 }

/-- Sample driver oracle: every statement yields a three-row result set. -/
def dbSample : String → QueryOutcome := fun _ =>
  QueryOutcome.resultSet ["id", "name"]
    [[.int 1, .str "a"], [.int 2, .str "b"], [.int 3, .str "c"]]

/-! ### Helper lemmas -/

/-- A statement whose trimmed uppercase text starts with `SELECT` is not
classified as a write: none of the seven write keywords begins with `S`. -/
theorem select_not_write (s : String)
    (h : pyStartsWith (pyUpper (pyStrip s)) "SELECT" = true) :
    isWriteQuery s = false := by
  unfold pyStartsWith at h
  simp only [ List.isPrefixOf_iff_prefix] at h
  obtain ⟨t, ht⟩ := h
  simp only [isWriteQuery, writeKeywords, pyStartsWith, List.any_cons, List.any_nil]
  rw [← ht]
  simp only [Bool.or_eq_false_iff]
  exact ⟨rfl, rfl, rfl, rfl, rfl, rfl, rfl, trivial⟩

/-- C1: under write-mode BLOCKED, `execute_sql` rejects a statement without
touching the driver exactly when the prefix check classifies it as a write;
the rejection is a `status=error` result whose message contains "blocked";
every other statement (in particular every SELECT, under either mode)
reaches the driver's execute path. -/
theorem execute_sql_write_block_iff (cfg : PostgresConfig)
    (db : String → QueryOutcome) (sql_query : String) :
    ((execute_sql cfg db sql_query).2 = false ↔
      isWriteQuery sql_query = true ∧ cfg.write_mode = WriteMode.BLOCKED)
    ∧ (isWriteQuery sql_query = true → cfg.write_mode = WriteMode.BLOCKED →
        (execute_sql cfg db sql_query).1 =
          { status := .error, error_message := some blockedMsg })
    ∧ (∃ a b : String, blockedMsg = a ++ "blocked" ++ b)
    ∧ (pyStartsWith (pyUpper (pyStrip sql_query)) "SELECT" = true →
        (execute_sql cfg db sql_query).2 = true) := by
  by_cases hw : isWriteQuery sql_query = true ∧ cfg.write_mode = WriteMode.BLOCKED
  · refine ⟨?_, ?_, ⟨"Write operations are ", ". Only SELECT queries allowed.", rfl⟩, ?_⟩
    · simp [execute_sql, hw]
    · intro _ _
      simp [execute_sql, hw]
    · intro hsel
      exact absurd hw.1 (by simp [select_not_write sql_query hsel])
  · refine ⟨?_, ?_, ⟨"Write operations are ", ". Only SELECT queries allowed.", rfl⟩, ?_⟩
    · cases hdb : db sql_query <;> simp [execute_sql, hw, hdb]
    · intro h1 h2
      exact absurd ⟨h1, h2⟩ hw
    · intro _
      cases hdb : db sql_query <;> simp [execute_sql, hw, hdb]

/-- Witness for C1 at concrete inputs: `DROP TABLE customers` is rejected
with the blocked message and `SELECT * FROM customers` reaches the driver. -/
theorem execute_sql_write_block_iff_witness :
    (execute_sql cfgB dbSample "DROP TABLE customers").1 =
      { status := .error, error_message := some blockedMsg } ∧
    (execute_sql cfgB dbSample "SELECT * FROM customers").2 = true :=
  ⟨(execute_sql_write_block_iff cfgB dbSample "DROP TABLE customers").2.1
      (by decide) rfl,
   (execute_sql_write_block_iff cfgB dbSample "SELECT * FROM customers").2.2.2
      (by decide)⟩

/-- Sample driver oracle that always raises. -/
def dbFail : String → QueryOutcome := fun _ =>
  QueryOutcome.failure "relation \"customers\" does not exist"

/-- Configuration with `max_rows = 0` and writes allowed, exhibiting the
`fetchmany(0)` arraysize fallback. -/
def cfg0 : PostgresConfig :=
  { connection_string := "postgresql://u:p@localhost:5432/db",
    write_mode := WriteMode.ALLOWED, max_rows := 0 }

/-- Counterexample to C2 as stated: at `max_rows = 0` — inside the claim's
"every max_rows ≥ 0" — `fetchmany(0)` falls back to `arraysize` (1), so a
successful result against a non-empty result set carries one row, more
than `max_rows`. -/
theorem execute_sql_zero_max_rows_returns_row :
    cfg0.max_rows = 0
    ∧ ((execute_sql cfg0 dbSample "SELECT * FROM t").1.rows.getD []).length = 1
    ∧ ¬(((execute_sql cfg0 dbSample "SELECT * FROM t").1.rows.getD []).length ≤
          cfg0.max_rows) :=
  ⟨rfl, rfl, by decide⟩

/-- C2 (amended): for every `max_rows ≥ 1`, a successful `execute_sql`
result holds at most `max_rows` rows (`fetchmany(max_rows)`), and the
truncation is silent: the result is identical to the one obtained from a
driver returning only the first `max_rows` rows, so nothing in it reveals
that further rows existed. -/
theorem execute_sql_max_rows (cfg : PostgresConfig) (db : String → QueryOutcome)
    (sql_query : String) (cols : List String) (rws : List (List Value))
    (h : db sql_query = QueryOutcome.resultSet cols rws)
    (hpos : 1 ≤ cfg.max_rows) :
    ((execute_sql cfg db sql_query).1.rows.getD []).length ≤ cfg.max_rows
    ∧ (execute_sql cfg db sql_query).1 =
        (execute_sql cfg
          (fun _ => QueryOutcome.resultSet cols (rws.take cfg.max_rows))
          sql_query).1 := by
  have hmz : ¬cfg.max_rows = 0 := by omega
  by_cases hw : isWriteQuery sql_query = true ∧ cfg.write_mode = WriteMode.BLOCKED
  · constructor
    · simp [execute_sql, hw]
    · simp [execute_sql, hw]
  · constructor
    · simp only [execute_sql, hw, if_false, if_neg hw, h, fetchmany, if_neg hmz]
      exact List.length_take_le _ _
    · simp [execute_sql, hw, h, fetchmany, if_neg hmz, List.take_take]

/-- Witness for C2: with `max_rows = 2` and a three-row result set, at most
2 rows come back and the result equals the one for the pre-truncated set. -/
theorem execute_sql_max_rows_witness :
    ((execute_sql cfgA dbSample "SELECT * FROM t").1.rows.getD []).length ≤
      cfgA.max_rows
    ∧ (execute_sql cfgA dbSample "SELECT * FROM t").1 =
        (execute_sql cfgA
          (fun _ => QueryOutcome.resultSet ["id", "name"]
            ([[.int 1, .str "a"], [.int 2, .str "b"], [.int 3, .str "c"]].take
              cfgA.max_rows))
          "SELECT * FROM t").1 :=
  execute_sql_max_rows cfgA dbSample "SELECT * FROM t" ["id", "name"]
    [[.int 1, .str "a"], [.int 2, .str "b"], [.int 3, .str "c"]] rfl (by decide)

/-- A driver oracle returning a single-row result set. -/
def dbOneRow : String → QueryOutcome := fun _ =>
  QueryOutcome.resultSet ["id"] [[.int 1]]

/-- Counterexample to C8 as stated: at `max_rows = 0` against a one-row
result set, the true size (1) exceeds `max_rows`, yet `fetchmany(0)`'s
arraysize fallback returns that row and `row_count` equals the true size. -/
theorem execute_sql_zero_max_rows_row_count :
    cfg0.max_rows = 0
    ∧ (execute_sql cfg0 dbOneRow "SELECT * FROM t").1.status = Status.success
    ∧ cfg0.max_rows < ([[Value.int 1]] : List (List Value)).length
    ∧ (execute_sql cfg0 dbOneRow "SELECT * FROM t").1.row_count =
        some ([[Value.int 1]] : List (List Value)).length :=
  ⟨rfl, rfl, by decide, rfl⟩

/-- C8 (amended): for a successful row-returning call, `row_count` equals
the length of the returned `rows` list; for `max_rows ≥ 1`, when the
underlying result set exceeds `max_rows`, `row_count` is `max_rows`,
never the true size. -/
theorem execute_sql_row_count (cfg : PostgresConfig) (db : String → QueryOutcome)
    (sql_query : String) (cols : List String) (rws : List (List Value))
    (h : db sql_query = QueryOutcome.resultSet cols rws)
    (hs : (execute_sql cfg db sql_query).1.status = Status.success) :
    (execute_sql cfg db sql_query).1.row_count =
      some ((execute_sql cfg db sql_query).1.rows.getD []).length
    ∧ (1 ≤ cfg.max_rows → cfg.max_rows < rws.length →
        (execute_sql cfg db sql_query).1.row_count = some cfg.max_rows
        ∧ (execute_sql cfg db sql_query).1.row_count ≠ some rws.length) := by
  by_cases hw : isWriteQuery sql_query = true ∧ cfg.write_mode = WriteMode.BLOCKED
  · exact absurd hs (by simp [execute_sql, hw])
  · constructor
    · simp [execute_sql, hw, h]
    · intro hpos hlt
      have hmz : ¬cfg.max_rows = 0 := by omega
      constructor
      · simp only [execute_sql, if_neg hw, h, fetchmany, if_neg hmz]
        simp [List.length_take]
        omega
      · simp only [execute_sql, if_neg hw, h, fetchmany, if_neg hmz]
        simp [List.length_take]
        omega

/-- Witness for C8: three-row result set under `max_rows = 2` reports
`row_count = 2`, not 3. -/
theorem execute_sql_row_count_witness :
    (execute_sql cfgA dbSample "SELECT * FROM t").1.row_count =
      some ((execute_sql cfgA dbSample "SELECT * FROM t").1.rows.getD []).length
    ∧ (execute_sql cfgA dbSample "SELECT * FROM t").1.row_count =
        some cfgA.max_rows
    ∧ (execute_sql cfgA dbSample "SELECT * FROM t").1.row_count ≠ some 3 :=
  ⟨(execute_sql_row_count cfgA dbSample "SELECT * FROM t" ["id", "name"]
      [[.int 1, .str "a"], [.int 2, .str "b"], [.int 3, .str "c"]] rfl rfl).1,
   ((execute_sql_row_count cfgA dbSample "SELECT * FROM t" ["id", "name"]
      [[.int 1, .str "a"], [.int 2, .str "b"], [.int 3, .str "c"]] rfl rfl).2
      (by decide) (by decide)).1,
   ((execute_sql_row_count cfgA dbSample "SELECT * FROM t" ["id", "name"]
      [[.int 1, .str "a"], [.int 2, .str "b"], [.int 3, .str "c"]] rfl rfl).2
      (by decide) (by decide)).2⟩

/-- C4: a permitted statement producing no result set (driver reports a
command completion) yields a success result carrying the SQL text and a
rows-affected message, with no `columns`, `rows` or `row_count` keys; the
column list read by a caller defaulting absent keys to `[]` is empty. -/
theorem execute_sql_command_result (cfg : PostgresConfig)
    (db : String → QueryOutcome) (sql_query : String) (rc : Int)
    (h : db sql_query = QueryOutcome.command rc)
    (hs : (execute_sql cfg db sql_query).1.status = Status.success) :
    (execute_sql cfg db sql_query).1 =
      { status := .success, query := some sql_query,
        message := some ("Query executed successfully. Rows affected: " ++ toString rc) }
    ∧ (execute_sql cfg db sql_query).1.columns = none
    ∧ (execute_sql cfg db sql_query).1.columns.getD [] = []
    ∧ (execute_sql cfg db sql_query).1.rows = none
    ∧ (execute_sql cfg db sql_query).1.row_count = none := by
  by_cases hw : isWriteQuery sql_query = true ∧ cfg.write_mode = WriteMode.BLOCKED
  · exact absurd hs (by simp [execute_sql, hw])
  · refine ⟨?_, ?_, ?_, ?_, ?_⟩ <;> simp [execute_sql, hw, h]

/-- Witness for C4: a permitted `INSERT` affecting 1 row. -/
theorem execute_sql_command_result_witness :
    (execute_sql cfgA (fun _ => QueryOutcome.command 1)
        "INSERT INTO t VALUES (1)").1 =
      { status := .success, query := some "INSERT INTO t VALUES (1)",
        message := some ("Query executed successfully. Rows affected: " ++ toString (1 : Int)) } :=
  (execute_sql_command_result cfgA (fun _ => QueryOutcome.command 1)
      "INSERT INTO t VALUES (1)" 1 rfl rfl).1

/-- C10: the write-block rejection dict carries only `status` and
`error_message` (no `query` key), whereas an error produced by a driver
failure carries the submitted SQL in its `query` field. -/
theorem execute_sql_error_shape (cfg : PostgresConfig)
    (db : String → QueryOutcome) (sql_query : String) (e : String) :
    (isWriteQuery sql_query = true → cfg.write_mode = WriteMode.BLOCKED →
      (execute_sql cfg db sql_query).1 =
        { status := .error, error_message := some blockedMsg })
    ∧ ((cfg.write_mode = WriteMode.ALLOWED ∨ isWriteQuery sql_query = false) →
        db sql_query = QueryOutcome.failure e →
        (execute_sql cfg db sql_query).1 =
          { status := .error, query := some sql_query, error_message := some e }) := by
  constructor
  · intro h1 h2
    simp [execute_sql, h1, h2]
  · intro hna h
    have hw : ¬(isWriteQuery sql_query = true ∧ cfg.write_mode = WriteMode.BLOCKED) := by
      rcases hna with h1 | h1 <;> simp [h1]
    simp [execute_sql, hw, h]

/-- Witness for C10: blocked `DROP` has `query = none`; a failing `SELECT`
carries its SQL text. -/
theorem execute_sql_error_shape_witness :
    (execute_sql cfgB dbFail "DROP TABLE customers").1 =
      { status := .error, error_message := some blockedMsg }
    ∧ (execute_sql cfgB dbFail "SELECT * FROM customers").1 =
        { status := .error, query := some "SELECT * FROM customers",
          error_message := some "relation \"customers\" does not exist" } :=
  ⟨(execute_sql_error_shape cfgB dbFail "DROP TABLE customers"
      "relation \"customers\" does not exist").1 (by decide) rfl,
   (execute_sql_error_shape cfgB dbFail "SELECT * FROM customers"
      "relation \"customers\" does not exist").2 (Or.inr (by decide)) rfl⟩

/-- Sample `get_table_info` oracle whose first catalog query raises. -/
def qFailCols : TableInfoQueries :=
  { colsQ := .error "SSL connection has been closed unexpectedly",
    pkQ := .ok [], fkQ := .ok [], sampleQ := .ok [] }

/-- C5: an error inside `list_schemas`, `list_tables` or `get_table_info`
produces a result holding only `status=error` and the message; in
particular `get_table_info` discards every partially gathered field, and
its result is an error exactly when one of its four catalog queries
raised. -/
theorem inspector_error_atomicity (e schema_name : String)
    (q : TableInfoQueries) (table_name : String) :
    list_schemas (.error e) = { status := .error, error_message := some e }
    ∧ list_tables (.error e) schema_name =
        { status := .error, error_message := some e }
    ∧ ((get_table_info q table_name schema_name).status = Status.error →
        ∃ msg, get_table_info q table_name schema_name =
          { status := .error, error_message := some msg })
    ∧ ((get_table_info q table_name schema_name).status = Status.error ↔
        (q.colsQ.isOk = false ∨ q.pkQ.isOk = false ∨ q.fkQ.isOk = false ∨
          q.sampleQ.isOk = false)) := by
  refine ⟨rfl, rfl, ?_, ?_⟩
  · obtain ⟨cq, pq, fq, sq⟩ := q
    cases cq <;> cases pq <;> cases fq <;> cases sq <;> intro hst <;>
      first
        | exact ⟨_, rfl⟩
        | exact absurd hst (by simp [get_table_info])
  · obtain ⟨cq, pq, fq, sq⟩ := q
    cases cq <;> cases pq <;> cases fq <;> cases sq <;>
      simp [get_table_info, Except.isOk, Except.toBool]

/-- Witness for C5: a failing columns query yields the bare error dict. -/
theorem inspector_error_atomicity_witness :
    ∃ msg, get_table_info qFailCols "customers" "public" =
      { status := .error, error_message := some msg } :=
  (inspector_error_atomicity "boom" "public" qFailCols "customers").2.2.1 rfl

/-- Sample all-success `get_table_info` oracle. -/
def qOkSample : TableInfoQueries :=
  { colsQ := .ok [{ name := "id", type := "integer", nullable := false,
                    col_default := none },
                  { name := "name", type := "text", nullable := true,
                    col_default := none }],
    pkQ := .ok ["id"], fkQ := .ok [], sampleQ := .ok [] }

/-- Sample `list_tables` rows: one table `customers` with 3 live rows. -/
def tablesSample : List TableRow := [{ name := "customers", row_count := 3, description := "" }]

/-- Sample orchestration environment where every oracle succeeds. -/
def envSample : AskEnv :=
  { tablesQ := .ok tablesSample, infoQ := fun _ => qOkSample, db := dbSample,
    llm := fun _ => .ok "SELECT COUNT(*) FROM customers" }

/-- C7: the schema context `ask_data_insights` builds holds at most 10
lines; when every table-info fetch succeeds it describes exactly the first
10 tables in `list_tables` order; and the SQL-synthesis prompt the
completion capability receives embeds exactly this capped context. -/
theorem schema_context_cap (infoQ : String → TableInfoQueries)
    (schema_name : String) (tables : List TableRow) :
    (schema_context infoQ schema_name tables).length ≤ 10
    ∧ ((∀ t ∈ tables.take 10,
          (get_table_info (infoQ t.name) t.name schema_name).status = Status.success) →
        schema_context infoQ schema_name tables =
          (tables.take 10).map fun t =>
            table_line t (get_table_info (infoQ t.name) t.name schema_name))
    ∧ (∀ (cfg : PostgresConfig) (env : AskEnv) (question : String)
          (ts : List TableRow),
        env.tablesQ = .ok ts → env.infoQ = infoQ →
        (ask_data_insights cfg env question schema_name).prompts.head? =
          some (sql_synthesis_prompt schema_name
            (String.intercalate "\n" (schema_context infoQ schema_name ts))
            question cfg.max_rows)) := by
  refine ⟨?_, ?_, ?_⟩
  · exact le_trans (List.length_filterMap_le _ _) (List.length_take_le _ _)
  · intro hall
    unfold schema_context
    generalize tables.take 10 = l at hall ⊢
    induction l with
    | nil => rfl
    | cons t ts ih =>
        simp only [List.filterMap_cons, List.map_cons]
        have ht : (get_table_info (infoQ t.name) t.name schema_name).status =
            Status.success := hall t (List.mem_cons_self t ts)
        rw [if_pos ht]
        exact congrArg _ (ih fun t' ht' => hall t' (List.mem_cons_of_mem t ht'))
  · intro cfg env question ts hts hinfo
    simp only [ask_data_insights, hts, hinfo, list_tables]
    simp only [reduceCtorEq, if_false, Option.getD_some]
    cases hllm : env.llm (sql_synthesis_prompt schema_name
        (String.intercalate "\n" (schema_context infoQ schema_name ts))
        question cfg.max_rows) with
    | error e => simp [hllm]
    | ok text =>
        simp only [hllm]
        cases hex : extract_sql text with
        | none => simp [hex]
        | some sql_q =>
            simp only [hex]
            by_cases herr :
                (execute_sql cfg env.db sql_q).1.status = Status.error
            · simp [herr]
            · simp only [if_neg herr]
              cases env.llm (answer_synthesis_prompt question sql_q
                  (renderRows (((execute_sql cfg env.db sql_q).1.rows.getD []).take 5))
                  ((execute_sql cfg env.db sql_q).1.row_count.getD 0)) <;> simp

/-- Witness for C7: one table, all fetches succeed; the context is that
table's line and the prompt embeds it. -/
theorem schema_context_cap_witness :
    schema_context (fun _ => qOkSample) "public" tablesSample =
      (tablesSample.take 10).map
        (fun t => table_line t (get_table_info ((fun _ => qOkSample) t.name) t.name "public"))
    ∧ (ask_data_insights cfgB envSample "How many customers?" "public").prompts.head? =
        some (sql_synthesis_prompt "public"
          (String.intercalate "\n"
            (schema_context (fun _ => qOkSample) "public" tablesSample))
          "How many customers?" cfgB.max_rows) :=
  ⟨(schema_context_cap (fun _ => qOkSample) "public" tablesSample).2.1
      (fun _ _ => rfl),
   (schema_context_cap (fun _ => qOkSample) "public" tablesSample).2.2
      cfgB envSample "How many customers?" tablesSample rfl rfl⟩

/-- `dropWhile (· != c)` on a list containing `c` starts with `c`. -/
theorem dropWhile_ne_eq_cons (c : Char) (l : List Char) (hmem : c ∈ l) :
    l.dropWhile (fun x => x != c) = c :: (l.dropWhile (fun x => x != c)).tail := by
  induction l with
  | nil => cases hmem
  | cons a as ih =>
      by_cases hac : a = c
      · subst hac
        simp [List.dropWhile_cons]
      · have hne : (a != c) = true := bne_iff_ne.mpr hac
        have hmem' : c ∈ as := by
          rcases List.mem_cons.mp hmem with h | h
          · exact absurd h.symm hac
          · exact h
        rw [List.dropWhile_cons, if_pos hne]
        exact ih hmem'

/-- `takeWhile (· != c)` never contains `c`. -/
theorem not_mem_takeWhile_ne (c : Char) (l : List Char) :
    c ∉ l.takeWhile (fun x => x != c) := by
  intro hmem
  have := List.mem_takeWhile_imp hmem
  simp at this

/-- C6: whatever the completion text, the statement `ask_data_insights`
passes on to execution is a trim of a contiguous middle piece of the
trimmed text: at most one leading markdown-fence line (starting with three
backticks and ending at the first newline) and one trailing ```` ``` ````
delimiter are removed, and nothing else is altered. -/
theorem extract_sql_only_strips (t s : String) (h : extract_sql t = some s) :
    ∃ lead core trail : String,
      pyStrip t = lead ++ core ++ trail
      ∧ s = pyStrip core
      ∧ ((lead = "" ∧ pyStartsWith (pyStrip t) "```" = false)
          ∨ ∃ fl : String, lead = fl ++ "\n" ∧ pyStartsWith fl "```" = true
              ∧ '\n' ∉ fl.data)
      ∧ (trail = "" ∨ trail = "```") := by
  simp only [extract_sql] at h
  by_cases hst : pyStartsWith (pyStrip t) "```" = true
  · rw [if_pos hst] at h
    unfold afterFirstNewline at h
    by_cases hnl : (pyStrip t).data.contains '\n' = true
    · rw [if_pos hnl] at h
      simp only [Option.map, Option.some.injEq] at h
      have hmem : '\n' ∈ (pyStrip t).data := List.elem_iff.mp hnl
      have hd := dropWhile_ne_eq_cons '\n' (pyStrip t).data hmem
      have hsplit : (pyStrip t).data =
          (pyStrip t).data.takeWhile (fun x => x != '\n') ++
            '\n' :: ((pyStrip t).data.dropWhile (fun x => x != '\n')).tail := by
        have h1 := List.takeWhile_append_dropWhile (fun x => x != '\n') (pyStrip t).data
        rw [hd] at h1
        exact h1.symm
      have hfl : pyStartsWith ⟨(pyStrip t).data.takeWhile (fun x => x != '\n')⟩ "```" = true := by
        unfold pyStartsWith at hst ⊢
        simp only [ List.isPrefixOf_iff_prefix] at hst ⊢
        obtain ⟨r, hr⟩ := hst
        rw [← hr]
        rw [show List.takeWhile (fun x => x != '\n') ("```".data ++ r) =
              '`' :: '`' :: '`' :: List.takeWhile (fun x => x != '\n') r from rfl]
        exact ⟨List.takeWhile (fun x => x != '\n') r, rfl⟩
      have hflnl : '\n' ∉
          (⟨(pyStrip t).data.takeWhile (fun x => x != '\n')⟩ : String).data :=
        not_mem_takeWhile_ne '\n' (pyStrip t).data
      by_cases hend :
          pyEndsWith ⟨((pyStrip t).data.dropWhile (fun x => x != '\n')).tail⟩ "```" = true
      · rw [if_pos hend] at h
        unfold pyEndsWith at hend
        simp only [ List.isSuffixOf_iff_suffix] at hend
        obtain ⟨pre, hpre⟩ := hend
        have hlen : (((pyStrip t).data.dropWhile (fun x => x != '\n')).tail).length =
            pre.length + 3 := by
          rw [← hpre]
          simp
        have hdrop :
            dropLast3 ⟨((pyStrip t).data.dropWhile (fun x => x != '\n')).tail⟩ = ⟨pre⟩ := by
          unfold dropLast3
          refine congrArg String.mk ?_
          have h3 : pre.length + 3 - 3 = pre.length := by omega
          rw [hlen, h3, ← hpre]
          exact List.take_left pre _
        refine ⟨⟨(pyStrip t).data.takeWhile (fun x => x != '\n')⟩ ++ "\n", ⟨pre⟩, "```",
          ?_, ?_, ?_, Or.inr rfl⟩
        · apply String.ext
          conv_lhs => rw [hsplit, ← hpre]
          simp [String.data_append]
        · rw [← h, hdrop]
        · exact Or.inr ⟨⟨(pyStrip t).data.takeWhile (fun x => x != '\n')⟩, rfl, hfl, hflnl⟩
      · rw [if_neg hend] at h
        refine ⟨⟨(pyStrip t).data.takeWhile (fun x => x != '\n')⟩ ++ "\n",
          ⟨((pyStrip t).data.dropWhile (fun x => x != '\n')).tail⟩, "",
          ?_, h.symm, ?_, Or.inl rfl⟩
        · apply String.ext
          conv_lhs => rw [hsplit]
          simp [String.data_append]
        · exact Or.inr ⟨⟨(pyStrip t).data.takeWhile (fun x => x != '\n')⟩, rfl, hfl, hflnl⟩
    · rw [if_neg hnl] at h
      simp at h
  · rw [if_neg hst] at h
    simp only [Option.map, Option.some.injEq] at h
    by_cases hend : pyEndsWith (pyStrip t) "```" = true
    · rw [if_pos hend] at h
      unfold pyEndsWith at hend
      simp only [ List.isSuffixOf_iff_suffix] at hend
      obtain ⟨pre, hpre⟩ := hend
      have hlen : (pyStrip t).data.length = pre.length + 3 := by
        rw [← hpre]
        simp
      have hdrop : dropLast3 (pyStrip t) = ⟨pre⟩ := by
        unfold dropLast3
        refine congrArg String.mk ?_
        have h3 : pre.length + 3 - 3 = pre.length := by omega
        rw [hlen, h3, ← hpre]
        exact List.take_left pre _
      refine ⟨"", ⟨pre⟩, "```", ?_, ?_, Or.inl ⟨rfl, by simp [hst]⟩, Or.inr rfl⟩
      · apply String.ext
        simp only [String.data_append]
        rw [← hpre]
        simp
      · rw [← h, hdrop]
    · rw [if_neg hend] at h
      refine ⟨"", pyStrip t, "", ?_, h.symm, Or.inl ⟨rfl, by simp [hst]⟩, Or.inl rfl⟩
      apply String.ext
      simp [String.data_append]

/-- Witness for C6 at a fenced completion: the extraction of
```` ```sql\nSELECT 1;\n``` ```` decomposes as the theorem states. -/
theorem extract_sql_only_strips_witness :
    ∃ lead core trail : String,
      pyStrip "```sql\nSELECT 1;\n```" = lead ++ core ++ trail
      ∧ "SELECT 1;" = pyStrip core
      ∧ ((lead = "" ∧ pyStartsWith (pyStrip "```sql\nSELECT 1;\n```") "```" = false)
          ∨ ∃ fl : String, lead = fl ++ "\n" ∧ pyStartsWith fl "```" = true
              ∧ '\n' ∉ fl.data)
      ∧ (trail = "" ∨ trail = "```") :=
  extract_sql_only_strips "```sql\nSELECT 1;\n```" "SELECT 1;" (by decide)

/-- Sample orchestration environment whose table-listing query raises. -/
def envTablesFail : AskEnv :=
  { tablesQ := .error "connection refused", infoQ := fun _ => qOkSample,
    db := dbSample, llm := fun _ => .ok "SELECT 1" }

/-- Counterexample to C3 as stated: when the table-listing stage fails,
`_ask_data_insights` returns the `_list_tables` error dict unchanged, so
the error result does NOT carry the question. -/
theorem ask_listing_failure_lacks_question :
    (ask_data_insights cfgB envTablesFail "How many customers?" "public").result.status
      = Status.error
    ∧ (ask_data_insights cfgB envTablesFail "How many customers?" "public").result.question
      = none :=
  ⟨rfl, rfl⟩

/-- C3 (amended): every stage failure stops the pipeline and yields
`status=error`; an SQL-synthesis failure carries the question, an execution
failure carries the question and the synthesized SQL, but a table-listing
failure returns the listing error dict as-is — only `status` and
`error_message`, without the question. -/
theorem ask_stage_failures (cfg : PostgresConfig) (env : AskEnv)
    (question schema_name : String) :
    (∀ e, env.tablesQ = .error e →
      ask_data_insights cfg env question schema_name =
        { result := { status := .error, error_message := some e },
          executed := [], prompts := [] })
    ∧ (∀ ts e, env.tablesQ = .ok ts →
        (∀ p, env.llm p = .error e) →
        ask_data_insights cfg env question schema_name =
          { result := { status := .error, question := some question,
                        error_message := some e },
            executed := [],
            prompts := [sql_synthesis_prompt schema_name
              (String.intercalate "\n" (schema_context env.infoQ schema_name ts))
              question cfg.max_rows] })
    ∧ (∀ ts text sql_q, env.tablesQ = .ok ts →
        env.llm (sql_synthesis_prompt schema_name
          (String.intercalate "\n" (schema_context env.infoQ schema_name ts))
          question cfg.max_rows) = .ok text →
        extract_sql text = some sql_q →
        (execute_sql cfg env.db sql_q).1.status = Status.error →
        ask_data_insights cfg env question schema_name =
          { result := { status := .error, question := some question,
                        sql_query := some sql_q,
                        error_message := (execute_sql cfg env.db sql_q).1.error_message },
            executed := if (execute_sql cfg env.db sql_q).2 then [sql_q] else [],
            prompts := [sql_synthesis_prompt schema_name
              (String.intercalate "\n" (schema_context env.infoQ schema_name ts))
              question cfg.max_rows] }) := by
  refine ⟨?_, ?_, ?_⟩
  · intro e he
    simp [ask_data_insights, he, list_tables]
  · intro ts e hts hllm
    simp [ask_data_insights, hts, list_tables, hllm]
  · intro ts text sql_q hts hllm hex herr
    simp [ask_data_insights, hts, list_tables, hllm, hex, herr]

/-- Witness for C3 (amended), table-listing stage: the failing listing
yields the bare error dict, no driver call, no completion call. -/
theorem ask_stage_failures_witness :
    ask_data_insights cfgB envTablesFail "How many customers?" "public" =
      { result := { status := .error, error_message := some "connection refused" },
        executed := [], prompts := [] } :=
  (ask_stage_failures cfgB envTablesFail "How many customers?" "public").1
    "connection refused" rfl

/-- Sample orchestration environment whose completion replies with a
single-line fenced text (no newline). -/
def envFence : AskEnv :=
  { tablesQ := .ok tablesSample, infoQ := fun _ => qOkSample, db := dbSample,
    llm := fun _ => .ok "```SELECT 1```" }

/-- C9: a completion text that starts with the fence delimiter but
contains no newline makes the fence-stripping step fail
(`split("\n", 1)[1]` raises `IndexError`), so `ask_data_insights` returns
`status=error` (with the question and the `IndexError` message) and no SQL
reaches the driver. -/
theorem ask_fence_without_newline (cfg : PostgresConfig) (env : AskEnv)
    (question schema_name : String) (ts : List TableRow) (text : String)
    (hts : env.tablesQ = .ok ts)
    (hllm : ∀ p, env.llm p = .ok text)
    (hfence : pyStartsWith (pyStrip text) "```" = true)
    (hnl : (pyStrip text).data.contains '\n' = false) :
    (ask_data_insights cfg env question schema_name).result.status = Status.error
    ∧ (ask_data_insights cfg env question schema_name).result.question = some question
    ∧ (ask_data_insights cfg env question schema_name).result.error_message
        = some indexErrorMsg
    ∧ (ask_data_insights cfg env question schema_name).executed = [] := by
  have hmem : '\n' ∉ (pyStrip text).data := by simpa using hnl
  have hex : extract_sql text = none := by
    unfold extract_sql afterFirstNewline
    simp [hfence, hnl, hmem]
  refine ⟨?_, ?_, ?_, ?_⟩ <;>
    simp [ask_data_insights, hts, list_tables, hllm, hex]

/-- Witness for C9 at the one-line reply ```` ```SELECT 1``` ````. -/
theorem ask_fence_without_newline_witness :
    (ask_data_insights cfgB envFence "How many customers?" "public").result.status
      = Status.error
    ∧ (ask_data_insights cfgB envFence "How many customers?" "public").executed = [] :=
  ⟨(ask_fence_without_newline cfgB envFence "How many customers?" "public"
      tablesSample "```SELECT 1```" rfl (fun _ => rfl) (by decide) (by decide)).1,
   (ask_fence_without_newline cfgB envFence "How many customers?" "public"
      tablesSample "```SELECT 1```" rfl (fun _ => rfl) (by decide) (by decide)).2.2.2⟩

end PostgresToolset
